import Mathlib

/-!
Shallow embedding of the MCP tool-server core (server/app of the
MCP-Tool-Server-Agentic-Automation repository): the policy gate
(`policy.py`), the idempotency store (`idempotency.py`), the pending-action
confirmation state machine and the tool handlers (`main.py`), over the data
model of `models.py`.  SQLAlchemy rows become Lean structures, the database
session becomes an explicit `DB` record threaded through every handler, and
`raise HTTPException` becomes an `Except HTTPException` result paired with
the post-state.  JSON (de)serialization of payloads (`json.dumps`/`loads`,
which round-trip) is modelled as the identity: stored payloads and responses
are kept structurally.
-/

namespace MCP

/-- `Customer` row (`models.py`): id, name, status. -/
structure Customer where
  id : Nat
  name : String
  status : String
  deriving Repr, DecidableEq

/-- `Ticket` row (`models.py`): id, title, description, priority,
`created_at` (kept as its ISO string), customer_id. -/
structure Ticket where
  id : Nat
  customer_id : Nat
  title : String
  description : String
  priority : String
  created_at : String
  deriving Repr, DecidableEq

/-- The response stored by `create_ticket` under an idempotency key
(`main.py` lines 227-235): the fields of the `"ticket"` object of the
response dict. -/
structure TicketResponse where
  id : Nat
  customer_id : Nat
  title : String
  priority : String
  created_at : String
  deriving Repr, DecidableEq

/-- `IdempotencyRecord` row (`models.py`): (tool, key) with the serialized
response; `response_json` is modelled structurally since `json.dumps` /
`json.loads` round-trip. -/
structure IdempotencyRecord where
  tool : String
  key : String
  response : TicketResponse
  deriving Repr, DecidableEq

/-- Input schema `UpdateCustomerStatusIn` (`main.py`). -/
structure UpdateCustomerStatusIn where
  customer_id : Nat
  new_status : String
  confirm : Bool
  deriving Repr, DecidableEq

/-- `PendingAction` row (`models.py`): uuid-hex id, action type, serialized
payload (modelled structurally, `PendingAction.dumps`/`loads` round-trip),
status string `"pending" | "confirmed" | "rejected"`. -/
structure PendingAction where
  id : String
  action_type : String
  payload : UpdateCustomerStatusIn
  status : String
  deriving Repr, DecidableEq

/-- The database session state: the four tables touched by the core. -/
structure DB where
  customers : List Customer
  tickets : List Ticket
  idempotency_records : List IdempotencyRecord
  pending_actions : List PendingAction
  deriving Repr, DecidableEq

/-- `fastapi.HTTPException`: status code and detail message. -/
structure HTTPException where
  status_code : Nat
  detail : String
  deriving Repr, DecidableEq

/-! ## Python string primitives

The handlers call `str.strip()`, `str.lower()` and `str.split(",")`.
They are modelled by structural recursion over the character list (the
builtin `String.trim` is not used because the embedding must evaluate
inside the kernel). -/

/-- Python `s.strip()`: drop whitespace from both ends. -/
def pyStrip (s : String) : String :=
  String.mk
    (((s.data.dropWhile Char.isWhitespace).reverse.dropWhile
        Char.isWhitespace).reverse)

/-- Python `s.lower()`: lower-case every character. -/
def pyLower (s : String) : String := String.mk (s.data.map Char.toLower)

/-- Worker for `splitComma`, accumulating the current field reversed. -/
def splitCommaAux : List Char → List Char → List String
  | [], acc => [String.mk acc.reverse]
  | c :: rest, acc =>
    if c = ',' then String.mk acc.reverse :: splitCommaAux rest []
    else splitCommaAux rest (c :: acc)

/-- Python `s.split(",")`; in particular `"".split(",") = [""]`. -/
def splitComma (s : String) : List String := splitCommaAux s.data []

/-! ## Policy gate (`policy.py`) -/

/-- `DEFAULT_ALLOWED` (`policy.py`): the Python set is modelled as a list;
only membership is ever used. -/
def DEFAULT_ALLOWED : List String :=
  ["search_customer", "create_ticket", "update_customer_status",
   "send_message", "get_incident_impact"]

/-- `allowed_tools()` (`policy.py`): reads `ALLOWED_TOOLS` from the
environment (here the parameter `raw`); empty/blank means the default set,
otherwise split on commas, strip, drop empties. -/
def allowed_tools (raw : String) : List String :=
  if pyStrip raw = "" then DEFAULT_ALLOWED
  else ((splitComma raw).map pyStrip).filter (fun x => !(x == ""))

/-- `assert_allowed(tool)` (`policy.py`): `PermissionError` (carrying its
message) when the tool is not in the allowed set. -/
def assert_allowed (raw tool : String) : Except String Unit :=
  if tool ∈ allowed_tools raw then Except.ok ()
  else Except.error ("Tool not allowed by policy: " ++ tool)

/-- `tool_guard(tool)` (`main.py` lines 175-179): converts the
`PermissionError` into an `HTTPException` with status 403. -/
def tool_guard (raw tool : String) : Except HTTPException Unit :=
  match assert_allowed raw tool with
  | Except.ok () => Except.ok ()
  | Except.error msg => Except.error ⟨403, msg⟩

/-! ## Idempotency store (`idempotency.py`) -/

/-- `ConflictError`: the rejection of a second insert for an existing
(tool, key) pair, enforced by the `UniqueConstraint("tool", "key")` of
`models.py` (`uq_tool_key`); the failing `db.commit()` surfaces it as an
integrity error. -/
structure ConflictError where
  tool : String
  key : String
  deriving Repr, DecidableEq

/-- `get_cached_response(db, tool, key)` (`idempotency.py` lines 9-13):
first record matching (tool, key), or `none`. Read-only. -/
def get_cached_response (db : DB) (tool key : String) : Option TicketResponse :=
  (db.idempotency_records.find? (fun r => r.tool == tool && r.key == key)).map
    (fun r => r.response)

/-- `store_response(db, tool, key, response)` (`idempotency.py` lines
16-19): inserts a new `IdempotencyRecord` and commits.  When a record for
the same (tool, key) already exists the commit violates the
`uq_tool_key` unique constraint of `models.py` and fails, leaving the
table unchanged; that rejection is the `ConflictError` branch here. -/
def store_response (db : DB) (tool key : String) (response : TicketResponse) :
    Except ConflictError DB :=
  if db.idempotency_records.any (fun r => r.tool == tool && r.key == key) then
    Except.error ⟨tool, key⟩
  else
    Except.ok { db with
      idempotency_records := db.idempotency_records ++ [⟨tool, key, response⟩] }

/-! ## create_ticket (`main.py` lines 197-241) -/

/-- Input schema `CreateTicketIn` (`main.py`). -/
structure CreateTicketIn where
  customer_id : Nat
  title : String
  description : String
  priority : String
  deriving Repr, DecidableEq

/-- Output schema `CreateTicketOut` (`main.py`): the response dict
`{"ticket": ..., "idempotent_replay": ...}`. -/
structure CreateTicketOut where
  ticket : TicketResponse
  idempotent_replay : Bool
  deriving Repr, DecidableEq

/-- The autoincrement primary key for a new `tickets` row: one more than
the largest existing id. -/
def nextTicketId (ts : List Ticket) : Nat :=
  (ts.foldl (fun m t => max m t.id) 0) + 1

/-- The non-replay tail of `create_ticket` (`main.py` lines 213-241):
look up the customer (404 if absent), insert the ticket (own commit),
build the response, store it under the idempotency key when one was
supplied (a conflicting insert fails that later commit, surfaced as a
500 integrity error with the ticket already persisted), and return the
response tagged `idempotent_replay := false`.  `now` stands for
`datetime.utcnow().isoformat()`. -/
def create_ticket_exec (db : DB) (payload : CreateTicketIn)
    (idempotency_key : Option String) (now : String) :
    Except HTTPException CreateTicketOut × DB :=
  match db.customers.find? (fun c => c.id == payload.customer_id) with
  | none => (Except.error ⟨404, "Customer not found"⟩, db)
  | some _ =>
    let t : Ticket :=
      { id := nextTicketId db.tickets
        customer_id := payload.customer_id
        title := pyStrip payload.title
        description := pyStrip payload.description
        priority := pyLower (pyStrip payload.priority)
        created_at := now }
    let db1 := { db with tickets := db.tickets ++ [t] }
    let response : TicketResponse :=
      { id := t.id, customer_id := t.customer_id, title := t.title,
        priority := t.priority, created_at := t.created_at ++ "Z" }
    match idempotency_key with
    | some k =>
      match store_response db1 "create_ticket" k response with
      | Except.ok db2 => (Except.ok ⟨response, false⟩, db2)
      | Except.error _ => (Except.error ⟨500, "IntegrityError"⟩, db1)
    | none => (Except.ok ⟨response, false⟩, db1)

/-- `create_ticket` (`main.py` lines 197-241): policy guard, then replay
from the idempotency store when the key is cached (`{**cached,
"idempotent_replay": True}`, no re-execution), else the execution tail. -/
def create_ticket (raw : String) (db : DB) (payload : CreateTicketIn)
    (idempotency_key : Option String) (now : String) :
    Except HTTPException CreateTicketOut × DB :=
  match tool_guard raw "create_ticket" with
  | Except.error e => (Except.error e, db)
  | Except.ok () =>
    match idempotency_key with
    | some k =>
      match get_cached_response db "create_ticket" k with
      | some cached => (Except.ok ⟨cached, true⟩, db)
      | none => create_ticket_exec db payload (some k) now
    | none => create_ticket_exec db payload none now

/-! ## update_customer_status (`main.py` lines 244-282) -/

/-- A customer object as returned in responses:
`{"id": ..., "name": ..., "status": ...}`. -/
structure CustomerOut where
  id : Nat
  name : String
  status : String
  deriving Repr, DecidableEq

/-- Output schema `UpdateCustomerStatusOut` (`main.py`). -/
structure UpdateCustomerStatusOut where
  requires_confirmation : Bool
  pending_action_id : Option String
  customer : Option CustomerOut
  deriving Repr, DecidableEq

/-- `cust.status = v; db.commit()` on the first row matching the id
(SQLAlchemy `filter_by(id=...).first()` then attribute assignment). -/
def setCustomerStatus : List Customer → Nat → String → List Customer
  | [], _, _ => []
  | c :: rest, cid, v =>
    if c.id == cid then { c with status := v } :: rest
    else c :: setCustomerStatus rest cid v

/-- `pa.status = v; db.commit()` on the first pending action matching the
id (the primary key, so at most one row matches). -/
def setPendingStatus : List PendingAction → String → String → List PendingAction
  | [], _, _ => []
  | pa :: rest, pid, v =>
    if pa.id == pid then { pa with status := v } :: rest
    else pa :: setPendingStatus rest pid v

/-- `update_customer_status` (`main.py` lines 244-282): policy guard;
404 when the customer is absent; without `confirm`, park a
`PendingAction` (fresh uuid hex `gen_id`, status `"pending"`, the payload
serialized) and answer `requires_confirmation := true`; with `confirm`,
apply `cust.status = payload.new_status.strip()` at once and return the
updated customer. -/
def update_customer_status (raw : String) (db : DB)
    (payload : UpdateCustomerStatusIn) (gen_id : String) :
    Except HTTPException UpdateCustomerStatusOut × DB :=
  match tool_guard raw "update_customer_status" with
  | Except.error e => (Except.error e, db)
  | Except.ok () =>
    match db.customers.find? (fun c => c.id == payload.customer_id) with
    | none => (Except.error ⟨404, "Customer not found"⟩, db)
    | some cust =>
      if !payload.confirm then
        let pa : PendingAction :=
          { id := gen_id, action_type := "update_customer_status",
            payload := payload, status := "pending" }
        (Except.ok ⟨true, some gen_id, none⟩,
         { db with pending_actions := db.pending_actions ++ [pa] })
      else
        let st := pyStrip payload.new_status
        (Except.ok ⟨false, none, some ⟨cust.id, cust.name, st⟩⟩,
         { db with customers := setCustomerStatus db.customers payload.customer_id st })

/-! ## confirm_action (`main.py` lines 285-319) -/

/-- The response dict of `confirm_action`: `{"ok": ..., "status": ...}`
with an optional `"customer"` object on the confirmed path. -/
structure ConfirmOut where
  ok : Bool
  status : String
  customer : Option CustomerOut
  deriving Repr, DecidableEq

/-- `confirm_action(pending_action_id, payload)` (`main.py` lines
285-319): 404 when no pending action has the id; 409 when its status is
not `"pending"`; on reject mark it `"rejected"` (no entity touched); on
approve with action type `"update_customer_status"` re-load the stored
payload, 404-and-reject when the customer vanished, else apply the
trimmed new status, mark `"confirmed"` and return the updated customer;
any other action type is marked `"rejected"` and surfaced as an
HTTP 400 `"Unknown action_type"` error.  No `tool_guard` is applied on
this route. -/
def confirm_action (db : DB) (pending_action_id : String) (approve : Bool) :
    Except HTTPException ConfirmOut × DB :=
  match db.pending_actions.find? (fun pa => pa.id == pending_action_id) with
  | none => (Except.error ⟨404, "Pending action not found"⟩, db)
  | some pa =>
    if pa.status ≠ "pending" then
      (Except.error ⟨409, "Pending action already " ++ pa.status⟩, db)
    else if !approve then
      (Except.ok ⟨true, "rejected", none⟩,
       { db with pending_actions := setPendingStatus db.pending_actions pending_action_id "rejected" })
    else
      let data := pa.payload
      if pa.action_type == "update_customer_status" then
        match db.customers.find? (fun c => c.id == data.customer_id) with
        | none =>
          (Except.error ⟨404, "Customer not found during confirm"⟩,
           { db with pending_actions := setPendingStatus db.pending_actions pending_action_id "rejected" })
        | some cust =>
          let st := pyStrip data.new_status
          (Except.ok ⟨true, "confirmed", some ⟨cust.id, cust.name, st⟩⟩,
           { db with
              customers := setCustomerStatus db.customers data.customer_id st
              pending_actions := setPendingStatus db.pending_actions pending_action_id "confirmed" })
      else
        (Except.error ⟨400, "Unknown action_type: " ++ pa.action_type⟩,
         { db with pending_actions := setPendingStatus db.pending_actions pending_action_id "rejected" })

/-! ## Helper lemmas -/

/-- Updating the status of the first row matching a primary key updates
what a subsequent lookup by that key sees. -/
theorem find_setPendingStatus (l : List PendingAction) (pid v : String)
    (pa : PendingAction) (h : l.find? (fun x => x.id == pid) = some pa) :
    (setPendingStatus l pid v).find? (fun x => x.id == pid) =
      some { pa with status := v } := by
  induction l with
  | nil => simp at h
  | cons x rest ih =>
    by_cases hx : x.id = pid
    · have hb : (x.id == pid) = true := by simpa using hx
      rw [List.find?_cons_of_pos (p := fun (y : PendingAction) => y.id == pid) rest hb] at h
      cases h
      simp [setPendingStatus, hb]
    · have hb : (x.id == pid) = false := by simpa using hx
      rw [List.find?_cons_of_neg (p := fun (y : PendingAction) => y.id == pid) rest (by simp [hb])] at h
      unfold setPendingStatus
      rw [if_neg (by simp [hb])]
      rw [List.find?_cons_of_neg (p := fun (y : PendingAction) => y.id == pid) _ (by simp [hb])]
      exact ih h

/-- Same fact for the customers table. -/
theorem find_setCustomerStatus (l : List Customer) (cid : Nat) (v : String)
    (c : Customer) (h : l.find? (fun x => x.id == cid) = some c) :
    (setCustomerStatus l cid v).find? (fun x => x.id == cid) =
      some { c with status := v } := by
  induction l with
  | nil => simp at h
  | cons x rest ih =>
    by_cases hx : x.id = cid
    · have hb : (x.id == cid) = true := by simpa using hx
      rw [List.find?_cons_of_pos (p := fun (y : Customer) => y.id == cid) rest hb] at h
      cases h
      simp [setCustomerStatus, hb]
    · have hb : (x.id == cid) = false := by simpa using hx
      rw [List.find?_cons_of_neg (p := fun (y : Customer) => y.id == cid) rest (by simp [hb])] at h
      unfold setCustomerStatus
      rw [if_neg (by simp [hb])]
      rw [List.find?_cons_of_neg (p := fun (y : Customer) => y.id == cid) _ (by simp [hb])]
      exact ih h

/-- A `resolve` on a pending action whose status is not `"pending"` fails
with 409 and leaves the database untouched (`main.py` lines 291-292). -/
theorem confirm_action_not_pending (db : DB) (pid : String) (a : Bool)
    (pa : PendingAction)
    (hfind : db.pending_actions.find? (fun x => x.id == pid) = some pa)
    (hst : pa.status ≠ "pending") :
    confirm_action db pid a =
      (Except.error ⟨409, "Pending action already " ++ pa.status⟩, db) := by
  simp [confirm_action, hfind, hst]

/-! ## C1 -/

/-- C1: when `create_ticket` is allowed and the idempotency store already
holds a response `cached` for the supplied key, `create_ticket` returns
exactly that stored response with `idempotent_replay := true` and leaves
the database unchanged: no new `Ticket` row, the ticket count (and every
other table) is unchanged, and the payload equals the stored response
apart from the replay tag. -/
theorem C1_idempotent_replay (raw : String) (db : DB) (payload : CreateTicketIn)
    (k now : String) (cached : TicketResponse)
    (hallow : "create_ticket" ∈ allowed_tools raw)
    (hcache : get_cached_response db "create_ticket" k = some cached) :
    create_ticket raw db payload (some k) now =
      (Except.ok ⟨cached, true⟩, db) := by
  simp [create_ticket, tool_guard, assert_allowed, hallow, hcache]

/-- C1 witness: a concrete database holding a cached response for key
`"k1"`; the call replays it verbatim and changes nothing. -/
theorem C1_idempotent_replay_witness :
    create_ticket ""
        ⟨[⟨1, "ACME AB", "Active"⟩], [],
         [⟨"create_ticket", "k1", ⟨7, 1, "Printer broken", "medium", "2026-01-01T00:00:00Z"⟩⟩], []⟩
        ⟨1, "Printer broken", "", "medium"⟩ (some "k1") "2026-02-02T00:00:00" =
      (Except.ok ⟨⟨7, 1, "Printer broken", "medium", "2026-01-01T00:00:00Z"⟩, true⟩,
       ⟨[⟨1, "ACME AB", "Active"⟩], [],
        [⟨"create_ticket", "k1", ⟨7, 1, "Printer broken", "medium", "2026-01-01T00:00:00Z"⟩⟩], []⟩) :=
  C1_idempotent_replay "" _ _ "k1" _ _ (by decide) (by rfl)

/-! ## C2 -/

/-- C2: when a record is already stored for (tool, key) — its response
being `r1` — any second `store_response` with a divergent response `r2`
fails with the `ConflictError` of the `uq_tool_key` unique constraint and
produces no new database state, so the originally stored response is left
unchanged: first write wins, never a silent overwrite. -/
theorem C2_first_write_wins (db : DB) (tool key : String)
    (r1 r2 : TicketResponse)
    (hex : get_cached_response db tool key = some r1) (_hne : r2 ≠ r1) :
    store_response db tool key r2 = Except.error ⟨tool, key⟩ ∧
    ∀ db2 : DB, store_response db tool key r2 ≠ Except.ok db2 := by
  have hany : db.idempotency_records.any
      (fun r => r.tool == tool && r.key == key) = true := by
    simp only [get_cached_response, Option.map_eq_some'] at hex
    obtain ⟨rec, hrec, -⟩ := hex
    have hmem := List.mem_of_find?_eq_some hrec
    have hp := List.find?_some hrec
    exact List.any_eq_true.mpr ⟨rec, hmem, hp⟩
  refine ⟨by simp [store_response, hany], fun db2 h => ?_⟩
  simp [store_response, hany] at h

/-- C2 witness: a concrete store holding response `R1` under
`("create_ticket", "k1")`; storing a divergent `R2` is rejected. -/
theorem C2_first_write_wins_witness :
    store_response
        ⟨[], [], [⟨"create_ticket", "k1", ⟨7, 1, "Printer broken", "medium", "t1Z"⟩⟩], []⟩
        "create_ticket" "k1" ⟨8, 1, "Other", "low", "t2Z"⟩ =
      Except.error ⟨"create_ticket", "k1"⟩ :=
  (C2_first_write_wins _ "create_ticket" "k1"
      ⟨7, 1, "Printer broken", "medium", "t1Z"⟩ ⟨8, 1, "Other", "low", "t2Z"⟩
      (by rfl) (by decide)).1

/-! ## More helper lemmas for the confirmation state machine -/

/-- A successful `store_response` only touches the idempotency table. -/
theorem store_response_pending (db : DB) (t k : String) (r : TicketResponse)
    (db2 : DB) (h : store_response db t k r = Except.ok db2) :
    db2.pending_actions = db.pending_actions := by
  unfold store_response at h
  split at h
  · simp at h
  · cases h
    rfl

/-- `create_ticket_exec` never touches the pending-actions table. -/
theorem create_ticket_exec_pending (db : DB) (payload : CreateTicketIn)
    (key : Option String) (now : String) :
    ((create_ticket_exec db payload key now).2).pending_actions =
      db.pending_actions := by
  unfold create_ticket_exec
  split
  · rfl
  · dsimp only
    split
    · split
      · rename_i db2 h
        rw [store_response_pending _ _ _ _ _ h]
      · rfl
    · rfl

/-- `create_ticket` never touches the pending-actions table. -/
theorem create_ticket_pending (raw : String) (db : DB)
    (payload : CreateTicketIn) (key : Option String) (now : String) :
    ((create_ticket raw db payload key now).2).pending_actions =
      db.pending_actions := by
  unfold create_ticket
  split
  · rfl
  · split
    · split
      · rfl
      · exact create_ticket_exec_pending ..
    · exact create_ticket_exec_pending ..

/-- `update_customer_status` only ever appends to the pending-actions
table; it never rewrites an existing row. -/
theorem update_pending_append (raw : String) (db : DB)
    (payload : UpdateCustomerStatusIn) (gid : String) :
    ∃ t, ((update_customer_status raw db payload gid).2).pending_actions =
      db.pending_actions ++ t := by
  unfold update_customer_status
  split
  · exact ⟨[], (List.append_nil _).symm⟩
  · split
    · exact ⟨[], (List.append_nil _).symm⟩
    · split
      · exact ⟨[_], rfl⟩
      · exact ⟨[], (List.append_nil _).symm⟩

/-- Resolving a pending action (either way) sets its status to a terminal
value — `"confirmed"` or `"rejected"` — in every branch of
`confirm_action`. -/
theorem confirm_sets_terminal (db : DB) (pid : String) (a : Bool)
    (pa : PendingAction)
    (hfind : db.pending_actions.find? (fun x => x.id == pid) = some pa)
    (hst : pa.status = "pending") :
    ∃ v, (v = "confirmed" ∨ v = "rejected") ∧
      ((confirm_action db pid a).2).pending_actions =
        setPendingStatus db.pending_actions pid v := by
  cases a with
  | false =>
    refine ⟨"rejected", Or.inr rfl, ?_⟩
    simp [confirm_action, hfind, hst]
  | true =>
    by_cases hty : pa.action_type = "update_customer_status"
    · cases hc : db.customers.find? (fun c => c.id == pa.payload.customer_id) with
      | none =>
        refine ⟨"rejected", Or.inr rfl, ?_⟩
        simp [confirm_action, hfind, hst, hty, hc]
      | some cust =>
        refine ⟨"confirmed", Or.inl rfl, ?_⟩
        simp [confirm_action, hfind, hst, hty, hc]
    · refine ⟨"rejected", Or.inr rfl, ?_⟩
      simp [confirm_action, hfind, hst, hty]

/-! ## C3 -/

/-- C3: the pending-action status is a strict one-way state machine.  A
resolve on a non-`pending` action fails with 409 and changes nothing; a
resolve on a `pending` action leaves it `"confirmed"` or `"rejected"`,
after which any second resolve on the same identifier fails with 409 and
changes nothing; and neither `update_customer_status` (which only appends
fresh rows) nor `create_ticket` (which never touches the table) moves any
record out of a terminal status. -/
theorem C3_one_way_state_machine (db : DB) (pid : String) (a a' : Bool)
    (pa : PendingAction)
    (hfind : db.pending_actions.find? (fun x => x.id == pid) = some pa) :
    (pa.status ≠ "pending" →
      confirm_action db pid a =
        (Except.error ⟨409, "Pending action already " ++ pa.status⟩, db)) ∧
    (pa.status = "pending" →
      ∃ pa1, ((confirm_action db pid a).2).pending_actions.find?
          (fun x => x.id == pid) = some pa1 ∧
        (pa1.status = "confirmed" ∨ pa1.status = "rejected") ∧
        confirm_action (confirm_action db pid a).2 pid a' =
          (Except.error ⟨409, "Pending action already " ++ pa1.status⟩,
           (confirm_action db pid a).2)) ∧
    (∀ raw payload gid,
      ∃ t, ((update_customer_status raw db payload gid).2).pending_actions =
        db.pending_actions ++ t) ∧
    (∀ raw payload key now,
      ((create_ticket raw db payload key now).2).pending_actions =
        db.pending_actions) := by
  refine ⟨fun h => confirm_action_not_pending db pid a pa hfind h, fun hst => ?_,
    fun raw payload gid => update_pending_append raw db payload gid,
    fun raw payload key now => create_ticket_pending raw db payload key now⟩
  obtain ⟨v, hv, hset⟩ := confirm_sets_terminal db pid a pa hfind hst
  have hfind1 : ((confirm_action db pid a).2).pending_actions.find?
      (fun x => x.id == pid) = some { pa with status := v } := by
    rw [hset]
    exact find_setPendingStatus _ _ _ _ hfind
  refine ⟨{ pa with status := v }, hfind1, ?_, ?_⟩
  · rcases hv with rfl | rfl
    · exact Or.inl rfl
    · exact Or.inr rfl
  · refine confirm_action_not_pending _ _ _ _ hfind1 ?_
    rcases hv with rfl | rfl
    · exact (by decide : ("confirmed" : String) ≠ "pending")
    · exact (by decide : ("rejected" : String) ≠ "pending")

/-- C3 witness: a concrete already-confirmed action; resolving it again
fails with 409 and the database is untouched. -/
theorem C3_one_way_state_machine_witness :
    confirm_action
        ⟨[⟨1, "ACME AB", "Active"⟩], [], [],
         [⟨"p1", "update_customer_status", ⟨1, "VIP", false⟩, "confirmed"⟩]⟩
        "p1" true =
      (Except.error ⟨409, "Pending action already confirmed"⟩,
       ⟨[⟨1, "ACME AB", "Active"⟩], [], [],
        [⟨"p1", "update_customer_status", ⟨1, "VIP", false⟩, "confirmed"⟩]⟩) :=
  (C3_one_way_state_machine _ "p1" true true
      ⟨"p1", "update_customer_status", ⟨1, "VIP", false⟩, "confirmed"⟩
      (by rfl)).1 (by decide)

/-! ## C4 -/

/-- C4: invoking the risk-gated `update_customer_status` without
`confirm` on an existing customer parks a `PendingAction` with status
`"pending"` under the freshly generated identifier and returns
`requires_confirmation := true` carrying it, while the customers table —
in particular the referenced customer's status — is left untouched. -/
theorem C4_no_premature_mutation (raw : String) (db : DB)
    (payload : UpdateCustomerStatusIn) (gen_id : String) (cust : Customer)
    (hallow : "update_customer_status" ∈ allowed_tools raw)
    (hcust : db.customers.find? (fun c => c.id == payload.customer_id) = some cust)
    (hconf : payload.confirm = false)
    (hfresh : ∀ pa ∈ db.pending_actions, pa.id ≠ gen_id) :
    update_customer_status raw db payload gen_id =
      (Except.ok ⟨true, some gen_id, none⟩,
       { db with pending_actions := db.pending_actions ++
           [⟨gen_id, "update_customer_status", payload, "pending"⟩] }) ∧
    ((update_customer_status raw db payload gen_id).2).customers =
      db.customers ∧
    ∀ pa ∈ db.pending_actions, pa.id ≠ gen_id := by
  have heq : update_customer_status raw db payload gen_id =
      (Except.ok ⟨true, some gen_id, none⟩,
       { db with pending_actions := db.pending_actions ++
           [⟨gen_id, "update_customer_status", payload, "pending"⟩] }) := by
    simp [update_customer_status, tool_guard, assert_allowed, hallow, hcust, hconf]
  exact ⟨heq, by rw [heq], hfresh⟩

/-- C4 witness: a concrete risk-gated call without `confirm`; a pending
action appears, the customer is untouched. -/
theorem C4_no_premature_mutation_witness :
    update_customer_status ""
        ⟨[⟨1, "ACME AB", "Active"⟩], [], [], []⟩ ⟨1, "VIP", false⟩ "deadbeef" =
      (Except.ok ⟨true, some "deadbeef", none⟩,
       ⟨[⟨1, "ACME AB", "Active"⟩], [], [],
        [⟨"deadbeef", "update_customer_status", ⟨1, "VIP", false⟩, "pending"⟩]⟩) :=
  (C4_no_premature_mutation "" _ _ "deadbeef" ⟨1, "ACME AB", "Active"⟩
      (by decide) (by rfl) (by rfl) (by simp)).1

/-! ## C5 -/

/-- C5: rejecting a pending action (`approve := false`) marks it
`"rejected"`, returns the rejection outcome, and mutates no business
entity: the customers table is unchanged. -/
theorem C5_rejection_noop (db : DB) (pid : String) (pa : PendingAction)
    (hfind : db.pending_actions.find? (fun x => x.id == pid) = some pa)
    (hst : pa.status = "pending") :
    confirm_action db pid false =
      (Except.ok ⟨true, "rejected", none⟩,
       { db with pending_actions :=
           setPendingStatus db.pending_actions pid "rejected" }) ∧
    ((confirm_action db pid false).2).customers = db.customers ∧
    ((confirm_action db pid false).2).pending_actions.find?
        (fun x => x.id == pid) = some { pa with status := "rejected" } := by
  have heq : confirm_action db pid false =
      (Except.ok ⟨true, "rejected", none⟩,
       { db with pending_actions :=
           setPendingStatus db.pending_actions pid "rejected" }) := by
    simp [confirm_action, hfind, hst]
  refine ⟨heq, by rw [heq], ?_⟩
  rw [heq]
  exact find_setPendingStatus _ _ _ _ hfind

/-- C5 witness: rejecting a concrete pending action leaves the customer
exactly as it was. -/
theorem C5_rejection_noop_witness :
    confirm_action
        ⟨[⟨1, "ACME AB", "Active"⟩], [], [],
         [⟨"p1", "update_customer_status", ⟨1, "VIP", false⟩, "pending"⟩]⟩
        "p1" false =
      (Except.ok ⟨true, "rejected", none⟩,
       ⟨[⟨1, "ACME AB", "Active"⟩], [], [],
        [⟨"p1", "update_customer_status", ⟨1, "VIP", false⟩, "rejected"⟩]⟩) :=
  (C5_rejection_noop _ "p1"
      ⟨"p1", "update_customer_status", ⟨1, "VIP", false⟩, "pending"⟩
      (by rfl) (by rfl)).1

/-! ## C9 -/

/-- C9: invoking `update_customer_status` with `confirm := true` on an
existing customer applies the mutation immediately — the customer's
status becomes the supplied `new_status`, stripped — returns
`requires_confirmation := false` with the updated customer, and creates
no pending action. -/
theorem C9_preconfirmed_executes (raw : String) (db : DB)
    (payload : UpdateCustomerStatusIn) (gid : String) (cust : Customer)
    (hallow : "update_customer_status" ∈ allowed_tools raw)
    (hcust : db.customers.find? (fun c => c.id == payload.customer_id) = some cust)
    (hconf : payload.confirm = true) :
    update_customer_status raw db payload gid =
      (Except.ok ⟨false, none,
         some ⟨cust.id, cust.name, pyStrip payload.new_status⟩⟩,
       { db with customers := setCustomerStatus db.customers payload.customer_id (pyStrip payload.new_status) }) ∧
    ((update_customer_status raw db payload gid).2).pending_actions =
      db.pending_actions ∧
    ((update_customer_status raw db payload gid).2).customers.find?
        (fun c => c.id == payload.customer_id) =
      some { cust with status := pyStrip payload.new_status } := by
  have heq : update_customer_status raw db payload gid =
      (Except.ok ⟨false, none,
         some ⟨cust.id, cust.name, pyStrip payload.new_status⟩⟩,
       { db with customers := setCustomerStatus db.customers payload.customer_id (pyStrip payload.new_status) }) := by
    simp [update_customer_status, tool_guard, assert_allowed, hallow, hcust, hconf]
  refine ⟨heq, by rw [heq], ?_⟩
  rw [heq]
  exact find_setCustomerStatus _ _ _ _ hcust

/-- C9 witness: a pre-confirmed call updates the customer at once (note
the stripping of `" VIP "`) and the pending-actions table stays empty. -/
theorem C9_preconfirmed_executes_witness :
    update_customer_status ""
        ⟨[⟨1, "ACME AB", "Active"⟩], [], [], []⟩ ⟨1, " VIP ", true⟩ "unused" =
      (Except.ok ⟨false, none, some ⟨1, "ACME AB", "VIP"⟩⟩,
       ⟨[⟨1, "ACME AB", "VIP"⟩], [], [], []⟩) :=
  (C9_preconfirmed_executes ""
      ⟨[⟨1, "ACME AB", "Active"⟩], [], [], []⟩ ⟨1, " VIP ", true⟩ "unused"
      ⟨1, "ACME AB", "Active"⟩ (by decide) (by rfl) (by rfl)).1

/-! ## C10 -/

/-- C10: the customer-existence check of `update_customer_status` runs
before the confirmation gate: with an absent customer the call fails 404
and the database — in particular the pending-actions table — is
untouched, whatever `confirm` is; and in general every pending action the
handler ever appends references a customer found in the table at the
moment of creation. -/
theorem C10_existence_checked_before_gate (raw : String) (db : DB)
    (payload : UpdateCustomerStatusIn) (gid : String)
    (hallow : "update_customer_status" ∈ allowed_tools raw)
    (habs : db.customers.find? (fun c => c.id == payload.customer_id) = none) :
    update_customer_status raw db payload gid =
      (Except.error ⟨404, "Customer not found"⟩, db) ∧
    ∀ (r2 : String) (db2 : DB) (p2 : UpdateCustomerStatusIn) (g2 : String),
      ((update_customer_status r2 db2 p2 g2).2).pending_actions =
        db2.pending_actions ∨
      ∃ cust, db2.customers.find? (fun c => c.id == p2.customer_id) = some cust ∧
        ((update_customer_status r2 db2 p2 g2).2).pending_actions =
          db2.pending_actions ++ [⟨g2, "update_customer_status", p2, "pending"⟩] := by
  constructor
  · simp [update_customer_status, tool_guard, assert_allowed, hallow, habs]
  · intro r2 db2 p2 g2
    cases hg : tool_guard r2 "update_customer_status" with
    | error e => left; simp [update_customer_status, hg]
    | ok u =>
      cases u
      cases hc : db2.customers.find? (fun c => c.id == p2.customer_id) with
      | none => left; simp [update_customer_status, hg, hc]
      | some c =>
        cases hcf : p2.confirm
        · right
          refine ⟨c, rfl, ?_⟩
          simp [update_customer_status, hg, hc, hcf]
        · left
          simp [update_customer_status, hg, hc, hcf]

/-- C10 witness: with no customer `9` the gated call fails 404 and no
pending action is created, even though `confirm` is `false`. -/
theorem C10_existence_checked_before_gate_witness :
    update_customer_status ""
        ⟨[⟨1, "ACME AB", "Active"⟩], [], [], []⟩ ⟨9, "VIP", false⟩ "g1" =
      (Except.error ⟨404, "Customer not found"⟩,
       ⟨[⟨1, "ACME AB", "Active"⟩], [], [], []⟩) :=
  (C10_existence_checked_before_gate "" _ _ "g1" (by decide) (by rfl)).1

/-! ## C6 -/

/-- C6 counterexample: the claim says that on approval the existing
customer's status is set to the stored `new_status`.  With stored
`new_status := " VIP "` the approval succeeds but the code applies
`data["new_status"].strip()` (`main.py` line 309), so the customer ends
up with `"VIP"`, which differs from the stored `new_status`. -/
theorem C6_counterexample :
    (confirm_action
        ⟨[⟨1, "ACME AB", "Active"⟩], [], [],
         [⟨"p1", "update_customer_status", ⟨1, " VIP ", false⟩, "pending"⟩]⟩
        "p1" true).1 =
      Except.ok ⟨true, "confirmed", some ⟨1, "ACME AB", "VIP"⟩⟩ ∧
    ((confirm_action
        ⟨[⟨1, "ACME AB", "Active"⟩], [], [],
         [⟨"p1", "update_customer_status", ⟨1, " VIP ", false⟩, "pending"⟩]⟩
        "p1" true).2).customers = [⟨1, "ACME AB", "VIP"⟩] ∧
    ("VIP" : String) ≠ " VIP " := ⟨rfl, rfl, by decide⟩

/-- C6 (amended: the applied status is the stored `new_status`
*stripped*): approving a pending `update_customer_status` action fails
with 404 and marks the action `rejected` — mutating no business entity —
when the referenced customer no longer exists; when it does exist, the
customer's status is set to the stored `new_status` stripped, the action
becomes `confirmed`, and the updated entity state is returned. -/
theorem C6_approval_revalidates (db : DB) (pid : String) (pa : PendingAction)
    (hfind : db.pending_actions.find? (fun x => x.id == pid) = some pa)
    (hst : pa.status = "pending")
    (hty : pa.action_type = "update_customer_status") :
    (db.customers.find? (fun c => c.id == pa.payload.customer_id) = none →
      confirm_action db pid true =
        (Except.error ⟨404, "Customer not found during confirm"⟩,
         { db with pending_actions :=
             setPendingStatus db.pending_actions pid "rejected" })) ∧
    (∀ cust,
      db.customers.find? (fun c => c.id == pa.payload.customer_id) = some cust →
      confirm_action db pid true =
        (Except.ok ⟨true, "confirmed",
           some ⟨cust.id, cust.name, pyStrip pa.payload.new_status⟩⟩,
         { db with
            customers := setCustomerStatus db.customers pa.payload.customer_id (pyStrip pa.payload.new_status)
            pending_actions := setPendingStatus db.pending_actions pid "confirmed" })) := by
  constructor
  · intro h
    simp [confirm_action, hfind, hst, hty, h]
  · intro cust h
    simp [confirm_action, hfind, hst, hty, h]

/-- C6 witness: approving a concrete pending action whose customer exists
confirms it, stripping the stored `" VIP "` to `"VIP"`. -/
theorem C6_approval_revalidates_witness :
    confirm_action
        ⟨[⟨1, "ACME AB", "Active"⟩], [], [],
         [⟨"p2", "update_customer_status", ⟨1, " VIP ", false⟩, "pending"⟩]⟩
        "p2" true =
      (Except.ok ⟨true, "confirmed", some ⟨1, "ACME AB", "VIP"⟩⟩,
       ⟨[⟨1, "ACME AB", "VIP"⟩], [], [],
        [⟨"p2", "update_customer_status", ⟨1, " VIP ", false⟩, "confirmed"⟩]⟩) :=
  (C6_approval_revalidates
      ⟨[⟨1, "ACME AB", "Active"⟩], [], [],
       [⟨"p2", "update_customer_status", ⟨1, " VIP ", false⟩, "pending"⟩]⟩
      "p2" ⟨"p2", "update_customer_status", ⟨1, " VIP ", false⟩, "pending"⟩
      (by rfl) (by rfl) (by rfl)).2
    ⟨1, "ACME AB", "Active"⟩ (by rfl)

/-! ## C7 -/

/-- C7 counterexample: the claim says an unrecognized action type is
surfaced as a *server* error.  The code raises `HTTPException(400)`
(`main.py` line 319), a client-error status: 400 lies below the 5xx
server-error range. -/
theorem C7_counterexample :
    (confirm_action
        ⟨[⟨1, "ACME AB", "Active"⟩], [], [],
         [⟨"p1", "delete_everything", ⟨1, "VIP", false⟩, "pending"⟩]⟩
        "p1" true).1 =
      Except.error ⟨400, "Unknown action_type: delete_everything"⟩ ∧
    (400 : Nat) < 500 := ⟨rfl, by decide⟩

/-- C7 (amended: the error is surfaced as an HTTP 400 client error, not a
server error): approving a pending action whose `action_type` the
executor does not recognize marks the action `rejected`, mutates no
business entity, and fails with the `Unknown action_type` HTTP 400
error. -/
theorem C7_unknown_action_rejected (db : DB) (pid : String)
    (pa : PendingAction)
    (hfind : db.pending_actions.find? (fun x => x.id == pid) = some pa)
    (hst : pa.status = "pending")
    (hty : pa.action_type ≠ "update_customer_status") :
    confirm_action db pid true =
      (Except.error ⟨400, "Unknown action_type: " ++ pa.action_type⟩,
       { db with pending_actions :=
           setPendingStatus db.pending_actions pid "rejected" }) ∧
    ((confirm_action db pid true).2).customers = db.customers ∧
    ((confirm_action db pid true).2).pending_actions.find?
        (fun x => x.id == pid) = some { pa with status := "rejected" } := by
  have heq : confirm_action db pid true =
      (Except.error ⟨400, "Unknown action_type: " ++ pa.action_type⟩,
       { db with pending_actions :=
           setPendingStatus db.pending_actions pid "rejected" }) := by
    simp [confirm_action, hfind, hst, hty]
  refine ⟨heq, by rw [heq], ?_⟩
  rw [heq]
  exact find_setPendingStatus _ _ _ _ hfind

/-- C7 witness: a concrete stale action type is rejected with the 400
error and the customer table is untouched. -/
theorem C7_unknown_action_rejected_witness :
    confirm_action
        ⟨[⟨1, "ACME AB", "Active"⟩], [], [],
         [⟨"p3", "close_account", ⟨1, "VIP", false⟩, "pending"⟩]⟩
        "p3" true =
      (Except.error ⟨400, "Unknown action_type: close_account"⟩,
       ⟨[⟨1, "ACME AB", "Active"⟩], [], [],
        [⟨"p3", "close_account", ⟨1, "VIP", false⟩, "rejected"⟩]⟩) :=
  (C7_unknown_action_rejected
      ⟨[⟨1, "ACME AB", "Active"⟩], [], [],
       [⟨"p3", "close_account", ⟨1, "VIP", false⟩, "pending"⟩]⟩
      "p3" ⟨"p3", "close_account", ⟨1, "VIP", false⟩, "pending"⟩
      (by rfl) (by rfl) (by decide)).1

/-! ## C8 -/

/-- C8: a tool name outside the configured allowed set is denied with the
403 policy error before anything else happens — the returned state is the
input state, so no idempotency record is stored, no pending action is
created and no business entity is mutated — while `assert_allowed`
succeeds for every tool name inside the allowed set. -/
theorem C8_policy_denial_short_circuits (raw raw2 tool : String) (db : DB)
    (p1 : CreateTicketIn) (key : Option String) (now : String)
    (p2 : UpdateCustomerStatusIn) (gid : String)
    (h1 : "create_ticket" ∉ allowed_tools raw)
    (h2 : "update_customer_status" ∉ allowed_tools raw)
    (h3 : tool ∈ allowed_tools raw2) :
    create_ticket raw db p1 key now =
      (Except.error ⟨403, "Tool not allowed by policy: create_ticket"⟩, db) ∧
    update_customer_status raw db p2 gid =
      (Except.error ⟨403, "Tool not allowed by policy: update_customer_status"⟩, db) ∧
    assert_allowed raw2 tool = Except.ok () := by
  refine ⟨?_, ?_, ?_⟩
  · simp [create_ticket, tool_guard, assert_allowed, h1]
  · simp [update_customer_status, tool_guard, assert_allowed, h2]
  · simp [assert_allowed, h3]

/-- C8 witness: with `ALLOWED_TOOLS="search_customer"`, `create_ticket`
is denied with 403 and the database is untouched. -/
theorem C8_policy_denial_short_circuits_witness :
    create_ticket "search_customer" ⟨[], [], [], []⟩ ⟨1, "Ticket", "", "medium"⟩
        none "t0" =
      (Except.error ⟨403, "Tool not allowed by policy: create_ticket"⟩,
       ⟨[], [], [], []⟩) :=
  (C8_policy_denial_short_circuits "search_customer" "" "create_ticket"
      ⟨[], [], [], []⟩ ⟨1, "Ticket", "", "medium"⟩ none "t0" ⟨1, "V", false⟩ "g"
      (by decide) (by decide) (by decide)).1

end MCP
